/-
Verification of the browser-side translator UI controller
(static/css/js/script.js): a shallow embedding of its state, its action
handlers and its scheduling primitives, with theorems about the client-side
request/response orchestration.
-/
import Mathlib

set_option maxRecDepth 10000

/-- Kind of a transient notification, mirroring the `type` argument of
`showAlert(message, type)` in the source (`info`, `success`, `error`). -/
inductive NotifKind where
  | info
  | success
  | error
deriving DecidableEq, Repr

/-- Body of a POST to `/translate`: `{ text, target_lang }`. -/
structure TranslateRequest where
  text : String
  target_lang : String
deriving DecidableEq, Repr

/-- Body of a POST to `/detect`: `{ text }`. -/
structure DetectRequest where
  text : String
deriving DecidableEq, Repr

/-- Body of a POST to `/tts`: `{ text, lang }`. -/
structure TtsRequest where
  text : String
  lang : String
deriving DecidableEq, Repr

/-- A network request issued by the client, tagged by endpoint. -/
inductive Request where
  | translateReq (r : TranslateRequest)
  | detectReq (r : DetectRequest)
  | ttsReq (r : TtsRequest)
deriving DecidableEq, Repr

/-- Parsed JSON response of `/translate`. -/
structure TranslateResponse where
  success : Bool
  translated_text : String
  source_lang : String
  source_code : String
  target_lang : String
  target_code : String
  error : Option String
deriving DecidableEq, Repr

/-- Parsed JSON response of `/detect`. -/
structure DetectResponse where
  success : Bool
  language : String
  code : String
deriving DecidableEq, Repr

/-- Parsed JSON response of `/tts`. -/
structure TtsResponse where
  success : Bool
  audio_url : String
  error : Option String
deriving DecidableEq, Repr

/-- Outcome of a `fetch` + `response.json()` pair: either parsed data, or a
network/parse error (the thrown value's `message`). -/
inductive FetchOutcome (α : Type) where
  | ok (data : α)
  | netError (msg : String)
deriving DecidableEq, Repr

/-- Outcome of `navigator.clipboard.writeText`. -/
inductive ClipboardOutcome where
  | ok
  | err
deriving DecidableEq, Repr

/-- Observable side effect of a handler run, in program order. -/
inductive Effect where
  | request (r : Request)
  | notify (message : String) (kind : NotifKind)
  | clipboardWrite (text : String)
  | scheduleAutoplay (delayMs : Nat)
  | scheduleCopyRevert (delayMs : Nat)
  | consoleLog (msg : String)
deriving DecidableEq, Repr

/-- Whether an effect is a network request. -/
def Effect.isRequest : Effect → Bool
  | .request _ => true
  | _ => false

/-- Whether an effect is a notification. -/
def Effect.isNotify : Effect → Bool
  | .notify _ _ => true
  | _ => false

/-- Whether an effect is a clipboard write. -/
def Effect.isClipboardWrite : Effect → Bool
  | .clipboardWrite _ => true
  | _ => false

/-- Whether an effect is a request to the `/tts` endpoint. -/
def Effect.isTtsRequest : Effect → Bool
  | .request (.ttsReq _) => true
  | _ => false

/-- JavaScript whitespace for the purpose of `String.prototype.trim`
(space, tab, newline, carriage return, vertical tab, form feed). -/
def jsWhitespace (c : Char) : Bool :=
  c = ' ' || c = '\t' || c = '\n' || c = '\r' || c = '\x0b' || c = '\x0c'

/-- Embedding of JavaScript `String.prototype.trim`: strip leading and
trailing whitespace. -/
def jsTrim (s : String) : String :=
  ⟨((s.data.dropWhile jsWhitespace).reverse.dropWhile jsWhitespace).reverse⟩

/-- Embedding of `text.split('(')[0]`: the prefix before the first `(`. -/
def splitParenHead (s : String) : String :=
  ⟨s.data.takeWhile (fun c => c ≠ '(')⟩

/-- Idle label of the translate control (restored in the `finally` block). -/
def translateIdleLabel : String := "<i class=\"fas fa-exchange-alt\"></i> Translate Now"

/-- Busy label of the translate control. -/
def translateBusyLabel : String := "<i class=\"fas fa-spinner fa-spin\"></i> Translating..."

/-- Idle label of the speak control (restored in the `finally` block). -/
def speakIdleLabel : String := "<i class=\"fas fa-volume-up\"></i> Listen"

/-- Busy label of the speak control. -/
def speakBusyLabel : String := "<i class=\"fas fa-spinner fa-spin\"></i> Generating..."

/-- Idle label of the copy control. -/
def copyIdleLabel : String := "<i class=\"fas fa-copy\"></i> Copy"

/-- Transient label of the copy control after a successful copy. -/
def copyCopiedLabel : String := "<i class=\"fas fa-check\"></i> Copied!"

/-- The result markup built on a successful translation (abstracting the
template literal of the source to a concatenation of its parts). -/
def translationHtml (sourceLang targetLang translatedText : String) : String :=
  "<div class=\"translation-result\"><div class=\"source-info\"><small>Translated from "
    ++ sourceLang ++ " to " ++ targetLang
    ++ "</small></div><div class=\"translation-text\">" ++ translatedText ++ "</div></div>"

/-- The placeholder markup written into the output area by `clearAll`. -/
def clearPlaceholderHtml : String :=
  "<div class=\"placeholder\"><i class=\"fas fa-language\"></i><h4>Translation will appear here</h4><p>Select target language and click Translate</p></div>"

/-- The DOM- and module-level state the script reads and writes: the text
area, the displays, the enablement and labels of the controls, the audio
player, and the two module-level variables `currentTranslation` and
`currentAudioUrl`. -/
structure UIState where
  inputText : String
  outputText : String
  charCounter : String
  translateBtnDisabled : Bool
  translateBtnLabel : String
  speakBtnDisabled : Bool
  speakBtnLabel : String
  copyBtnDisabled : Bool
  copyBtnLabel : String
  downloadBtnDisabled : Bool
  targetLangValue : String
  detectedLang : String
  detectedLangCode : String
  targetLangName : String
  targetLangCode : String
  audioPlayerDisplay : String
  audioElementSrc : String
  downloadAudioHref : String
  currentTranslation : String
  currentAudioUrl : String
deriving DecidableEq, Repr

/-- `updateTargetLanguage()`: recompute the target-language display from the
selected option (its text before the first `(`, trimmed) and the dropdown
value. `selectedOptionText` is the text of `targetLang.options[selectedIndex]`. -/
def updateTargetLanguage (st : UIState) (selectedOptionText : String) : UIState :=
  { st with
    targetLangName := jsTrim (splitParenHead selectedOptionText),
    targetLangCode := st.targetLangValue }

/-- A change of the target-language dropdown to value `v` whose selected
option displays `optText`, followed by the `change` listener
`updateTargetLanguage`. -/
def changeTargetLang (st : UIState) (v optText : String) : UIState :=
  updateTargetLanguage { st with targetLangValue := v } optText

/-- `detectLanguage()`: trim the input; if shorter than 3 characters show the
too-short placeholder and return without a network call; otherwise POST the
trimmed text to `/detect` and, on `success`, write the detected language and
code into the displays and show a success alert. A network/parse error is
caught, logged, and reported with an error alert; a `success: false` response
takes no action. -/
def detectLanguage (st : UIState) (o : FetchOutcome DetectResponse) : UIState × List Effect :=
  let text := jsTrim st.inputText
  if text.length < 3 then
    ({ st with detectedLang := "Text too short", detectedLangCode := "--" }, [])
  else
    let req := Effect.request (.detectReq ⟨text⟩)
    match o with
    | .ok d =>
        if d.success then
          ({ st with detectedLang := d.language, detectedLangCode := d.code },
           [req, .notify ("Detected: " ++ d.language) .success])
        else
          (st, [req])
    | .netError _ =>
        (st, [req, .consoleLog "Detection failed", .notify "Language detection failed" .error])

/-- `translate()`: trim the input; abort with an error alert when the trimmed
text is empty, or when its length exceeds 5000. Otherwise enter the busy
state, POST `{ text, target_lang }` to `/translate`; on `success` store the
translation, render the result, update the four language displays, enable the
speak/copy/download controls and hide the audio player; on a non-success
response or a network error show an error alert carrying the server message
when present. The `finally` block re-enables the translate control and
restores its idle label on every exit path from the `try`. -/
def translateAction (st : UIState) (o : FetchOutcome TranslateResponse) : UIState × List Effect :=
  let text := jsTrim st.inputText
  if text = "" then
    (st, [.notify "Please enter text to translate" .error])
  else if 5000 < text.length then
    (st, [.notify "Text is too long (max 5000 characters)" .error])
  else
    let busy := { st with translateBtnDisabled := true, translateBtnLabel := translateBusyLabel }
    let req := Effect.request (.translateReq ⟨text, st.targetLangValue⟩)
    let afterTry : UIState × List Effect :=
      match o with
      | .ok d =>
          if d.success then
            ({ busy with
                currentTranslation := d.translated_text,
                outputText := translationHtml d.source_lang d.target_lang d.translated_text,
                detectedLang := d.source_lang,
                detectedLangCode := d.source_code,
                targetLangName := d.target_lang,
                targetLangCode := d.target_code,
                speakBtnDisabled := false,
                copyBtnDisabled := false,
                downloadBtnDisabled := false,
                audioPlayerDisplay := "none" },
             [.notify "Translation successful!" .success])
          else
            (busy,
             [.consoleLog "Translation error",
              .notify ("Translation failed: " ++ d.error.getD "Translation failed") .error])
      | .netError msg =>
          (busy,
           [.consoleLog "Translation error",
            .notify ("Translation failed: " ++ msg) .error])
    ({ afterTry.1 with translateBtnDisabled := false, translateBtnLabel := translateIdleLabel },
     req :: afterTry.2)

/-- `generateSpeech()`: abort with an error alert when no translation is
stored. Otherwise enter the busy state, POST `{ text: currentTranslation,
lang: targetLang.value }` to `/tts`; on `success` store and wire up the audio
URL, reveal the audio player and schedule autoplay; on a non-success response
or a network error show an error alert. The `finally` block re-enables the
speak control and restores its idle label on every exit path from the `try`. -/
def generateSpeech (st : UIState) (o : FetchOutcome TtsResponse) : UIState × List Effect :=
  if st.currentTranslation = "" then
    (st, [.notify "No translation available" .error])
  else
    let busy := { st with speakBtnDisabled := true, speakBtnLabel := speakBusyLabel }
    let req := Effect.request (.ttsReq ⟨st.currentTranslation, st.targetLangValue⟩)
    let afterTry : UIState × List Effect :=
      match o with
      | .ok d =>
          if d.success then
            ({ busy with
                currentAudioUrl := d.audio_url,
                audioElementSrc := d.audio_url,
                downloadAudioHref := d.audio_url,
                audioPlayerDisplay := "flex" },
             [.scheduleAutoplay 100, .notify "Speech generated successfully" .success])
          else
            (busy,
             [.consoleLog "Speech error",
              .notify ("Speech generation failed: " ++ d.error.getD "Speech generation failed") .error])
      | .netError msg =>
          (busy,
           [.consoleLog "Speech error",
            .notify ("Speech generation failed: " ++ msg) .error])
    ({ afterTry.1 with speakBtnDisabled := false, speakBtnLabel := speakIdleLabel },
     req :: afterTry.2)

/-- `copyTranslation()`: abort with an error alert when no translation is
stored. Otherwise write the stored translation to the clipboard; on success
switch the copy control to its copied label, show a success alert and
schedule the label revert after 2000 ms; on failure log and show an error
alert. -/
def copyTranslation (st : UIState) (o : ClipboardOutcome) : UIState × List Effect :=
  if st.currentTranslation = "" then
    (st, [.notify "No translation to copy" .error])
  else
    match o with
    | .ok =>
        ({ st with copyBtnLabel := copyCopiedLabel },
         [.clipboardWrite st.currentTranslation,
          .notify "Translation copied to clipboard" .success,
          .scheduleCopyRevert 2000])
    | .err =>
        (st,
         [.clipboardWrite st.currentTranslation,
          .consoleLog "Copy failed",
          .notify "Failed to copy text" .error])

/-- `clearAll()`: unconditionally reset the input, the output placeholder,
the detection display, the stored translation and the counter; disable the
speak and copy controls; hide the audio player; show an info alert. -/
def clearAll (st : UIState) : UIState × List Effect :=
  ({ st with
      inputText := "",
      outputText := clearPlaceholderHtml,
      detectedLang := "Auto-Detect",
      detectedLangCode := "--",
      currentTranslation := "",
      speakBtnDisabled := true,
      copyBtnDisabled := true,
      audioPlayerDisplay := "none",
      charCounter := "0" },
   [.notify "All fields cleared" .info])

/-- A pending `setTimeout` instance: its id and its fire deadline
(arming time + delay). -/
structure TimerEntry where
  id : Nat
  deadline : Nat
deriving DecidableEq, Repr

/-- State of the debounced-detection machinery set up in `init()`: the text
area value, the `detectTimeout` variable (id of the last armed timer), the
multiset of timers currently pending in the environment, and a fresh-id
counter for `setTimeout`. -/
structure DetectorState where
  input : String
  detectTimeout : Nat
  timers : List TimerEntry
  nextId : Nat
deriving DecidableEq, Repr

/-- The detector at page load: empty input, no pending timer. -/
def detectorInit : DetectorState :=
  { input := "", detectTimeout := 0, timers := [], nextId := 1 }

/-- The `input` listener of `init()`: a change event setting the text area to
`e.1` at time `e.2`. It calls `clearTimeout(detectTimeout)` (removing the
timer with that id, if pending), then, when the trimmed value has length at
least 3, arms a fresh 1500 ms timer and stores its id in `detectTimeout`. -/
def onInputEvent (st : DetectorState) (e : String × Nat) : DetectorState :=
  let cleared := st.timers.filter (fun t => t.id != st.detectTimeout)
  if 3 ≤ (jsTrim e.1).length then
    { input := e.1,
      detectTimeout := st.nextId,
      timers := cleared ++ [⟨st.nextId, e.2 + 1500⟩],
      nextId := st.nextId + 1 }
  else
    { st with input := e.1, timers := cleared }

/-- Fold a sequence of input change events through the listener. -/
def runInputEvents (st : DetectorState) (es : List (String × Nat)) : DetectorState :=
  es.foldl onInputEvent st

/-- Invariant of the detector: at most one timer is pending and every pending
timer is the one whose id is stored in `detectTimeout`. -/
def DetectorInv (st : DetectorState) : Prop :=
  st.timers.length ≤ 1 ∧ ∀ t ∈ st.timers, t.id = st.detectTimeout

/-- A notification element present in the DOM. -/
structure AlertElem where
  id : Nat
  message : String
  kind : NotifKind
deriving DecidableEq, Repr

/-- State of the alert system: the `.alert` elements in the document in
insertion order, the pending 5000 ms auto-dismiss timeouts as
(alert id, fire time) pairs, and a fresh-id counter. -/
structure AlertSys where
  doc : List AlertElem
  sched : List (Nat × Nat)
  nextId : Nat
deriving DecidableEq, Repr

/-- The alert system at page load: no alert in the DOM. -/
def alertSysInit : AlertSys :=
  { doc := [], sched := [], nextId := 1 }

/-- `showAlert(message, type)` at time `now`: `document.querySelector` finds
the first `.alert` element and `remove()` deletes it; a new alert element is
appended to the body and its 5000 ms auto-dismiss timeout is scheduled. -/
def showAlert (sys : AlertSys) (msg : String) (k : NotifKind) (now : Nat) : AlertSys :=
  let removed := match sys.doc with
    | [] => ([] : List AlertElem)
    | _ :: rest => rest
  { doc := removed ++ [⟨sys.nextId, msg, k⟩],
    sched := sys.sched ++ [(sys.nextId, now + 5000)],
    nextId := sys.nextId + 1 }

/-- Dismissal of the alert with id `i` (manual close click, or the
auto-dismiss timeout firing with `alert.parentElement` still set): the
element is removed from the DOM when present, and the step is a no-op on the
DOM when it was already removed. -/
def dismissAlert (sys : AlertSys) (i : Nat) : AlertSys :=
  { sys with doc := sys.doc.filter (fun a => a.id != i) }

/-- An event touching the alert system. -/
inductive AlertEvent where
  | showMsg (msg : String) (k : NotifKind) (now : Nat)
  | close (i : Nat)
  | autoFire (i : Nat)
deriving DecidableEq, Repr

/-- One step of the alert system. -/
def alertStep (sys : AlertSys) (e : AlertEvent) : AlertSys :=
  match e with
  | .showMsg m k now => showAlert sys m k now
  | .close i => dismissAlert sys i
  | .autoFire i => dismissAlert sys i

/-- Fold a sequence of alert events from a given state. -/
def runAlertEvents (sys : AlertSys) (es : List AlertEvent) : AlertSys :=
  es.foldl alertStep sys

/-- The first `/tts` request body among a handler run's effects, if any. -/
def ttsRequestOf : List Effect → Option TtsRequest
  | [] => none
  | .request (.ttsReq r) :: _ => some r
  | _ :: rest => ttsRequestOf rest

/-- A concrete page-load state, matching the initial DOM of the page:
empty input, disabled speak/copy/download controls, hidden audio player. -/
def uiAfterLoad : UIState :=
  { inputText := "",
    outputText := clearPlaceholderHtml,
    charCounter := "0",
    translateBtnDisabled := false,
    translateBtnLabel := translateIdleLabel,
    speakBtnDisabled := true,
    speakBtnLabel := speakIdleLabel,
    copyBtnDisabled := true,
    copyBtnLabel := copyIdleLabel,
    downloadBtnDisabled := true,
    targetLangValue := "fr",
    detectedLang := "Auto-Detect",
    detectedLangCode := "--",
    targetLangName := "French",
    targetLangCode := "fr",
    audioPlayerDisplay := "none",
    audioElementSrc := "",
    downloadAudioHref := "",
    currentTranslation := "",
    currentAudioUrl := "" }

/-- On a successful response to a well-formed translate invocation, the
handler's final state and effect list, in closed form. -/
theorem translateAction_success_eq (st : UIState) (d : TranslateResponse)
    (h1 : jsTrim st.inputText ≠ "") (h2 : ¬ 5000 < (jsTrim st.inputText).length)
    (hs : d.success = true) :
    translateAction st (FetchOutcome.ok d) =
      ({ st with
          translateBtnDisabled := false,
          translateBtnLabel := translateIdleLabel,
          currentTranslation := d.translated_text,
          outputText := translationHtml d.source_lang d.target_lang d.translated_text,
          detectedLang := d.source_lang,
          detectedLangCode := d.source_code,
          targetLangName := d.target_lang,
          targetLangCode := d.target_code,
          speakBtnDisabled := false,
          copyBtnDisabled := false,
          downloadBtnDisabled := false,
          audioPlayerDisplay := "none" },
       [Effect.request (.translateReq ⟨jsTrim st.inputText, st.targetLangValue⟩),
        Effect.notify "Translation successful!" NotifKind.success]) := by
  simp only [translateAction]
  rw [if_neg h1, if_neg h2, hs]
  rfl

/-- When a translation is stored, the speak handler's first effect is the
`/tts` request carrying the stored translation and the dropdown value. -/
theorem ttsRequestOf_generateSpeech (su : UIState) (o : FetchOutcome TtsResponse)
    (hsu : su.currentTranslation ≠ "") :
    ttsRequestOf (generateSpeech su o).2 =
      some ⟨su.currentTranslation, su.targetLangValue⟩ := by
  simp only [generateSpeech]
  rw [if_neg hsu]
  rfl

/-- C8: the clear action, from any prior state, unconditionally resets the
input text, the output area, the detection display, the character counter and
the stored translation, leaves the speak and copy controls disabled and the
audio player hidden, and shows exactly one info notification. -/
theorem claim_C8 (st : UIState) :
    (clearAll st).1.inputText = "" ∧
    (clearAll st).1.outputText = clearPlaceholderHtml ∧
    (clearAll st).1.detectedLang = "Auto-Detect" ∧
    (clearAll st).1.detectedLangCode = "--" ∧
    (clearAll st).1.charCounter = "0" ∧
    (clearAll st).1.currentTranslation = "" ∧
    (clearAll st).1.speakBtnDisabled = true ∧
    (clearAll st).1.copyBtnDisabled = true ∧
    (clearAll st).1.audioPlayerDisplay = "none" ∧
    (clearAll st).2 = [Effect.notify "All fields cleared" NotifKind.info] :=
  ⟨rfl, rfl, rfl, rfl, rfl, rfl, rfl, rfl, rfl, rfl⟩

/-- C6: when the trimmed input is shorter than 3 characters at the time the
detection handler runs, no effect at all (in particular no `/detect` request)
is issued and the detection display shows the too-short placeholder with
code `--`. -/
theorem claim_C6 (st : UIState) (o : FetchOutcome DetectResponse)
    (h : (jsTrim st.inputText).length < 3) :
    (detectLanguage st o).2 = [] ∧
    (detectLanguage st o).1.detectedLang = "Text too short" ∧
    (detectLanguage st o).1.detectedLangCode = "--" := by
  simp only [detectLanguage]
  rw [if_pos h]
  exact ⟨rfl, rfl, rfl⟩

/-- Witness for C6 at the concrete input `"hi"` (trimmed length 2). -/
theorem claim_C6_witness :
    (detectLanguage { uiAfterLoad with inputText := "hi" } (FetchOutcome.netError "x")).2 = [] ∧
    (detectLanguage { uiAfterLoad with inputText := "hi" }
        (FetchOutcome.netError "x")).1.detectedLang = "Text too short" ∧
    (detectLanguage { uiAfterLoad with inputText := "hi" }
        (FetchOutcome.netError "x")).1.detectedLangCode = "--" :=
  claim_C6 { uiAfterLoad with inputText := "hi" } (FetchOutcome.netError "x") (by decide)

/-- C7: when no translation is stored, the speak handler and the copy handler
each show exactly one error notification and abort: the state is unchanged
and no network request and no clipboard write is issued. -/
theorem claim_C7 (st : UIState) (o : FetchOutcome TtsResponse) (c : ClipboardOutcome)
    (h : st.currentTranslation = "") :
    (generateSpeech st o).2 = [Effect.notify "No translation available" NotifKind.error] ∧
    (generateSpeech st o).1 = st ∧
    (copyTranslation st c).2 = [Effect.notify "No translation to copy" NotifKind.error] ∧
    (copyTranslation st c).1 = st := by
  simp only [generateSpeech, copyTranslation]
  rw [if_pos h, if_pos h]
  exact ⟨rfl, rfl, rfl, rfl⟩

/-- Witness for C7 at the page-load state, which stores no translation. -/
theorem claim_C7_witness :
    (generateSpeech uiAfterLoad (FetchOutcome.netError "x")).2 =
      [Effect.notify "No translation available" NotifKind.error] ∧
    (generateSpeech uiAfterLoad (FetchOutcome.netError "x")).1 = uiAfterLoad ∧
    (copyTranslation uiAfterLoad ClipboardOutcome.ok).2 =
      [Effect.notify "No translation to copy" NotifKind.error] ∧
    (copyTranslation uiAfterLoad ClipboardOutcome.ok).1 = uiAfterLoad :=
  claim_C7 uiAfterLoad (FetchOutcome.netError "x") ClipboardOutcome.ok (by decide)

/-- Dropping a prefix satisfying `p` from a nonempty block of a character `a`
with `p a = false` drops nothing. -/
theorem dropWhile_replicate_append (p : Char → Bool) (n : Nat) (a : Char) (l : List Char)
    (hn : n ≠ 0) (h : p a = false) :
    List.dropWhile p (List.replicate n a ++ l) = List.replicate n a ++ l := by
  cases n with
  | zero => exact absurd rfl hn
  | succ k => simp [List.replicate_succ, List.dropWhile_cons, h]

/-- Dropping a prefix satisfying `p` from a block of a character `a` with
`p a = false` drops nothing. -/
theorem dropWhile_replicate (p : Char → Bool) (n : Nat) (a : Char) (h : p a = false) :
    List.dropWhile p (List.replicate n a) = List.replicate n a := by
  cases n with
  | zero => simp
  | succ k => simp [List.replicate_succ, List.dropWhile_cons, h]

/-- An input of 5001 characters: 5000 letters followed by a space. Its raw
length exceeds 5000, its trimmed length does not. -/
def overlongInput : String := ⟨List.replicate 5000 'a' ++ [' ']⟩

/-- The raw length of `overlongInput` is 5001. -/
theorem overlongInput_length : overlongInput.length = 5001 := by
  show (List.replicate 5000 'a' ++ [' ']).length = 5001
  rw [List.length_append, List.length_replicate]
  rfl

/-- Trimming `overlongInput` removes exactly the trailing space. -/
theorem jsTrim_overlongInput : jsTrim overlongInput = ⟨List.replicate 5000 'a'⟩ := by
  show (⟨((((List.replicate 5000 'a' ++ [' ']).dropWhile jsWhitespace).reverse.dropWhile
      jsWhitespace).reverse : List Char)⟩ : String) = _
  rw [dropWhile_replicate_append _ _ _ _ (by decide) (by decide),
      List.reverse_append, List.reverse_replicate]
  show (⟨(List.dropWhile jsWhitespace (' ' :: List.replicate 5000 'a')).reverse⟩ : String) = _
  rw [List.dropWhile_cons]
  simp only [show jsWhitespace ' ' = true from rfl, if_true]
  rw [dropWhile_replicate _ _ _ (by decide), List.reverse_replicate]

/-- The trimmed length of `overlongInput` is exactly 5000. -/
theorem jsTrim_overlongInput_length : (jsTrim overlongInput).length = 5000 := by
  rw [jsTrim_overlongInput]
  show (List.replicate 5000 'a').length = 5000
  rw [List.length_replicate]

/-- The page-load state with `overlongInput` typed into the text area. -/
def uiOverlong : UIState := { uiAfterLoad with inputText := overlongInput }

/-- The input field of `uiOverlong` is `overlongInput`. -/
theorem uiOverlong_inputText : uiOverlong.inputText = overlongInput := rfl

/-- Counterexample to C1 as stated: `uiOverlong` has raw length 5001 > 5000,
yet invoking translate on it does issue a network request (the source checks
the length of the *trimmed* text, which is 5000 here). -/
theorem claim_C1_counterexample :
    5000 < uiOverlong.inputText.length ∧
    (translateAction uiOverlong (FetchOutcome.netError "network error")).2.any
      Effect.isRequest = true := by
  constructor
  · rw [uiOverlong_inputText, overlongInput_length]
    norm_num
  · have h1 : jsTrim uiOverlong.inputText ≠ "" := by
      rw [uiOverlong_inputText]
      intro hc
      have hl := jsTrim_overlongInput_length
      rw [hc] at hl
      exact absurd hl (by decide)
    have h2 : ¬ 5000 < (jsTrim uiOverlong.inputText).length := by
      rw [uiOverlong_inputText, jsTrim_overlongInput_length]
      norm_num
    simp only [translateAction]
    rw [if_neg h1, if_neg h2]
    rfl

/-- C1 (amended): for every input text whose TRIMMED length exceeds 5000
characters, translate is rejected client-side: the only effect is an error
notification (so no network request is issued) and the state — in particular
the enablement of the translate control — is unchanged. -/
theorem claim_C1 (st : UIState) (o : FetchOutcome TranslateResponse)
    (h : 5000 < (jsTrim st.inputText).length) :
    (translateAction st o).1 = st ∧
    (translateAction st o).2 =
      [Effect.notify "Text is too long (max 5000 characters)" NotifKind.error] := by
  have hne : jsTrim st.inputText ≠ "" := by
    intro hc
    rw [hc] at h
    exact absurd h (by decide)
  simp only [translateAction]
  rw [if_neg hne, if_pos h]
  exact ⟨rfl, rfl⟩

/-- An input of 5001 letters, equal to its own trim. -/
def overlongTrimmed : String := ⟨List.replicate 5001 'a'⟩

/-- `overlongTrimmed` is whitespace-free, so trimming it changes nothing. -/
theorem jsTrim_overlongTrimmed : jsTrim overlongTrimmed = overlongTrimmed := by
  show (⟨((((List.replicate 5001 'a').dropWhile jsWhitespace).reverse.dropWhile
      jsWhitespace).reverse : List Char)⟩ : String) = _
  rw [dropWhile_replicate _ _ _ (by decide), List.reverse_replicate,
      dropWhile_replicate _ _ _ (by decide), List.reverse_replicate]
  rfl

/-- The length of `overlongTrimmed` is 5001. -/
theorem overlongTrimmed_length : overlongTrimmed.length = 5001 := by
  show (List.replicate 5001 'a').length = 5001
  rw [List.length_replicate]

/-- Witness for the amended C1 at the concrete 5001-letter input. -/
theorem claim_C1_witness :
    (translateAction { uiAfterLoad with inputText := overlongTrimmed }
        (FetchOutcome.netError "x")).1 =
      { uiAfterLoad with inputText := overlongTrimmed } ∧
    (translateAction { uiAfterLoad with inputText := overlongTrimmed }
        (FetchOutcome.netError "x")).2 =
      [Effect.notify "Text is too long (max 5000 characters)" NotifKind.error] :=
  claim_C1 { uiAfterLoad with inputText := overlongTrimmed } (FetchOutcome.netError "x")
    (by rw [show ({ uiAfterLoad with inputText := overlongTrimmed } : UIState).inputText =
          overlongTrimmed from rfl, jsTrim_overlongTrimmed, overlongTrimmed_length]
        norm_num)

/-- C2: every run of the translate handler or of the speak handler that
passes its precondition checks ends with the control re-enabled and its idle
label restored, on every outcome — success, server-indicated failure, or
network error — alike. -/
theorem claim_C2 (st su : UIState) (o : FetchOutcome TranslateResponse)
    (o2 : FetchOutcome TtsResponse)
    (h1 : jsTrim st.inputText ≠ "") (h2 : (jsTrim st.inputText).length ≤ 5000)
    (h3 : su.currentTranslation ≠ "") :
    (translateAction st o).1.translateBtnDisabled = false ∧
    (translateAction st o).1.translateBtnLabel = translateIdleLabel ∧
    (generateSpeech su o2).1.speakBtnDisabled = false ∧
    (generateSpeech su o2).1.speakBtnLabel = speakIdleLabel := by
  simp only [translateAction, generateSpeech]
  rw [if_neg h1, if_neg (not_lt.mpr h2), if_neg h3]
  exact ⟨rfl, rfl, rfl, rfl⟩

/-- Witness for C2 at the concrete input `"Hello"` and a stored translation
`"Bonjour"`, on a network-error outcome for both handlers. -/
theorem claim_C2_witness :
    (translateAction { uiAfterLoad with inputText := "Hello" }
        (FetchOutcome.netError "x")).1.translateBtnDisabled = false ∧
    (translateAction { uiAfterLoad with inputText := "Hello" }
        (FetchOutcome.netError "x")).1.translateBtnLabel = translateIdleLabel ∧
    (generateSpeech { uiAfterLoad with currentTranslation := "Bonjour" }
        (FetchOutcome.netError "y")).1.speakBtnDisabled = false ∧
    (generateSpeech { uiAfterLoad with currentTranslation := "Bonjour" }
        (FetchOutcome.netError "y")).1.speakBtnLabel = speakIdleLabel :=
  claim_C2 { uiAfterLoad with inputText := "Hello" }
    { uiAfterLoad with currentTranslation := "Bonjour" }
    (FetchOutcome.netError "x") (FetchOutcome.netError "y")
    (by decide) (by decide) (by decide)

/-- C5: on every successful translate response the handler stores the new
translation, updates the source and target language displays from the
response, enables the speak, copy and download controls, and hides the audio
player; the translate handler never issues a `/tts` request, so the old audio
player is hidden before any new audio can be generated. -/
theorem claim_C5 (st : UIState) (d : TranslateResponse)
    (h1 : jsTrim st.inputText ≠ "") (h2 : (jsTrim st.inputText).length ≤ 5000)
    (hs : d.success = true) :
    (translateAction st (FetchOutcome.ok d)).1.currentTranslation = d.translated_text ∧
    (translateAction st (FetchOutcome.ok d)).1.detectedLang = d.source_lang ∧
    (translateAction st (FetchOutcome.ok d)).1.detectedLangCode = d.source_code ∧
    (translateAction st (FetchOutcome.ok d)).1.targetLangName = d.target_lang ∧
    (translateAction st (FetchOutcome.ok d)).1.targetLangCode = d.target_code ∧
    (translateAction st (FetchOutcome.ok d)).1.speakBtnDisabled = false ∧
    (translateAction st (FetchOutcome.ok d)).1.copyBtnDisabled = false ∧
    (translateAction st (FetchOutcome.ok d)).1.downloadBtnDisabled = false ∧
    (translateAction st (FetchOutcome.ok d)).1.audioPlayerDisplay = "none" ∧
    (translateAction st (FetchOutcome.ok d)).2.all (fun e => !e.isTtsRequest) = true := by
  rw [translateAction_success_eq st d h1 (not_lt.mpr h2) hs]
  exact ⟨rfl, rfl, rfl, rfl, rfl, rfl, rfl, rfl, rfl, rfl⟩

/-- The successful response of the spec's `"Hello"` → French scenario. -/
def bonjourResponse : TranslateResponse :=
  { success := true, translated_text := "Bonjour", source_lang := "English",
    source_code := "en", target_lang := "French", target_code := "fr", error := none }

/-- Witness for C5 at the concrete scenario: input `"Hello"`, target `fr`,
successful response `"Bonjour"` from English/en to French/fr. -/
theorem claim_C5_witness :
    (translateAction { uiAfterLoad with inputText := "Hello" }
        (FetchOutcome.ok bonjourResponse)).1.currentTranslation =
      bonjourResponse.translated_text ∧
    (translateAction { uiAfterLoad with inputText := "Hello" }
        (FetchOutcome.ok bonjourResponse)).1.detectedLang = bonjourResponse.source_lang ∧
    (translateAction { uiAfterLoad with inputText := "Hello" }
        (FetchOutcome.ok bonjourResponse)).1.detectedLangCode = bonjourResponse.source_code ∧
    (translateAction { uiAfterLoad with inputText := "Hello" }
        (FetchOutcome.ok bonjourResponse)).1.targetLangName = bonjourResponse.target_lang ∧
    (translateAction { uiAfterLoad with inputText := "Hello" }
        (FetchOutcome.ok bonjourResponse)).1.targetLangCode = bonjourResponse.target_code ∧
    (translateAction { uiAfterLoad with inputText := "Hello" }
        (FetchOutcome.ok bonjourResponse)).1.speakBtnDisabled = false ∧
    (translateAction { uiAfterLoad with inputText := "Hello" }
        (FetchOutcome.ok bonjourResponse)).1.copyBtnDisabled = false ∧
    (translateAction { uiAfterLoad with inputText := "Hello" }
        (FetchOutcome.ok bonjourResponse)).1.downloadBtnDisabled = false ∧
    (translateAction { uiAfterLoad with inputText := "Hello" }
        (FetchOutcome.ok bonjourResponse)).1.audioPlayerDisplay = "none" ∧
    (translateAction { uiAfterLoad with inputText := "Hello" }
        (FetchOutcome.ok bonjourResponse)).2.all (fun e => !e.isTtsRequest) = true :=
  claim_C5 { uiAfterLoad with inputText := "Hello" } bonjourResponse
    (by decide) (by decide) (by decide)

/-- A `/detect` response indicating non-success. -/
def detectFailResponse : DetectResponse :=
  { success := false, language := "", code := "" }

/-- Counterexample to C3 as stated: on input `"Hello"` (so a detection
request is issued) with a `success: false` server response, the handler
produces NO notification at all — the source has no else-branch for
`data.success` being false. -/
theorem claim_C3_counterexample :
    3 ≤ (jsTrim ({ uiAfterLoad with inputText := "Hello" } : UIState).inputText).length ∧
    (detectLanguage { uiAfterLoad with inputText := "Hello" }
        (FetchOutcome.ok detectFailResponse)).2.all (fun e => !e.isNotify) = true := by
  decide

/-- C3 (amended): a detection request that fails by network/parse error
shows an error notification and leaves the whole state (in particular the
detection display fields) at its prior value; a detection request answered
with `success: false` also leaves the state at its prior value but shows NO
notification. -/
theorem claim_C3 (st : UIState) (msg : String) (d : DetectResponse)
    (hlen : 3 ≤ (jsTrim st.inputText).length) (hd : d.success = false) :
    (detectLanguage st (FetchOutcome.netError msg)).1 = st ∧
    Effect.notify "Language detection failed" NotifKind.error ∈
      (detectLanguage st (FetchOutcome.netError msg)).2 ∧
    (detectLanguage st (FetchOutcome.ok d)).1 = st ∧
    (detectLanguage st (FetchOutcome.ok d)).2.all (fun e => !e.isNotify) = true := by
  simp only [detectLanguage]
  rw [if_neg (not_lt.mpr hlen), if_neg (not_lt.mpr hlen), hd]
  refine ⟨rfl, ?_, rfl, rfl⟩
  simp

/-- Witness for the amended C3 at the concrete input `"Hello"`. -/
theorem claim_C3_witness :
    (detectLanguage { uiAfterLoad with inputText := "Hello" }
        (FetchOutcome.netError "boom")).1 = { uiAfterLoad with inputText := "Hello" } ∧
    Effect.notify "Language detection failed" NotifKind.error ∈
      (detectLanguage { uiAfterLoad with inputText := "Hello" }
        (FetchOutcome.netError "boom")).2 ∧
    (detectLanguage { uiAfterLoad with inputText := "Hello" }
        (FetchOutcome.ok detectFailResponse)).1 = { uiAfterLoad with inputText := "Hello" } ∧
    (detectLanguage { uiAfterLoad with inputText := "Hello" }
        (FetchOutcome.ok detectFailResponse)).2.all (fun e => !e.isNotify) = true :=
  claim_C3 { uiAfterLoad with inputText := "Hello" } "boom" detectFailResponse
    (by decide) (by decide)

/-- When every pending timer carries the stored `detectTimeout` id,
`clearTimeout(detectTimeout)` empties the pending set. -/
theorem filter_detectTimeout_eq_nil (st : DetectorState)
    (h : ∀ t ∈ st.timers, t.id = st.detectTimeout) :
    st.timers.filter (fun t => t.id != st.detectTimeout) = [] := by
  rw [List.filter_eq_nil_iff]
  intro t ht
  simp [h t ht]

/-- Closed form of one input event under the timer invariant: the prior
timer (if any) is cancelled, and a single fresh 1500 ms timer is armed
exactly when the new trimmed value has length at least 3. -/
theorem onInputEvent_eq (st : DetectorState) (e : String × Nat)
    (h : ∀ t ∈ st.timers, t.id = st.detectTimeout) :
    onInputEvent st e =
      if 3 ≤ (jsTrim e.1).length then
        { input := e.1, detectTimeout := st.nextId,
          timers := [⟨st.nextId, e.2 + 1500⟩], nextId := st.nextId + 1 }
      else
        { st with input := e.1, timers := [] } := by
  have hc := filter_detectTimeout_eq_nil st h
  simp only [onInputEvent, hc, List.nil_append]

/-- One input event preserves the detector invariant. -/
theorem detectorInv_onInputEvent (st : DetectorState) (e : String × Nat)
    (h : DetectorInv st) : DetectorInv (onInputEvent st e) := by
  rw [onInputEvent_eq st e h.2]
  split
  · exact ⟨by simp, by simp⟩
  · exact ⟨by simp, by simp⟩

/-- Any sequence of input events preserves the detector invariant. -/
theorem detectorInv_runInputEvents (st : DetectorState) (es : List (String × Nat))
    (h : DetectorInv st) : DetectorInv (runInputEvents st es) := by
  induction es generalizing st with
  | nil => exact h
  | cons e es ih =>
      simp only [runInputEvents, List.foldl_cons]
      exact ih _ (detectorInv_onInputEvent st e h)

/-- C4: after any sequence of input change events ending with text `txt` at
time `now`, at most one detection timer is pending; every pending timer was
armed by the final event (deadline `now + 1500`, id fresh at the final
event); a timer is pending exactly when the final trimmed text has length at
least 3; and when it fires, the detection handler reads the final text and
issues the `/detect` request carrying the final trimmed value. -/
theorem claim_C4 (st : DetectorState) (es : List (String × Nat)) (txt : String) (now : Nat)
    (ui : UIState) (o : FetchOutcome DetectResponse)
    (hinv : DetectorInv st) (hui : ui.inputText = txt) :
    (runInputEvents st (es ++ [(txt, now)])).input = txt ∧
    (runInputEvents st (es ++ [(txt, now)])).timers.length ≤ 1 ∧
    (∀ t ∈ (runInputEvents st (es ++ [(txt, now)])).timers, t.deadline = now + 1500) ∧
    (3 ≤ (jsTrim txt).length →
      (runInputEvents st (es ++ [(txt, now)])).timers =
        [⟨(runInputEvents st es).nextId, now + 1500⟩]) ∧
    ((jsTrim txt).length < 3 → (runInputEvents st (es ++ [(txt, now)])).timers = []) ∧
    (3 ≤ (jsTrim txt).length →
      Effect.request (Request.detectReq ⟨jsTrim txt⟩) ∈ (detectLanguage ui o).2) := by
  have hmid := detectorInv_runInputEvents st es hinv
  have hkey : runInputEvents st (es ++ [(txt, now)]) =
      onInputEvent (runInputEvents st es) (txt, now) := by
    simp [runInputEvents, List.foldl_append]
  have hfire : 3 ≤ (jsTrim txt).length →
      Effect.request (Request.detectReq ⟨jsTrim txt⟩) ∈ (detectLanguage ui o).2 := by
    intro hlen
    simp only [detectLanguage, hui]
    rw [if_neg (not_lt.mpr hlen)]
    cases o with
    | ok d => cases hs : d.success <;> simp [hs]
    | netError m => simp
  rw [hkey, onInputEvent_eq _ _ hmid.2]
  by_cases hlen : 3 ≤ (jsTrim txt).length
  · rw [if_pos hlen]
    exact ⟨rfl, by simp, by simp, fun _ => rfl, fun hlt => absurd hlen (by omega),
      fun _ => hfire hlen⟩
  · rw [if_neg hlen]
    exact ⟨rfl, by simp, by simp, fun hc => absurd hc hlen, fun _ => rfl,
      fun hc => absurd hc hlen⟩

/-- Witness for C4: three rapid changes (`"B"`, `"Bon"`, `"Bonjour"`), the
final one at time 800; only one timer remains, armed by the final event, and
firing it requests detection of `"Bonjour"`. -/
theorem claim_C4_witness :
    (runInputEvents detectorInit ([("B", 0), ("Bon", 400)] ++ [("Bonjour", 800)])).input =
      "Bonjour" ∧
    (runInputEvents detectorInit
        ([("B", 0), ("Bon", 400)] ++ [("Bonjour", 800)])).timers.length ≤ 1 ∧
    (∀ t ∈ (runInputEvents detectorInit ([("B", 0), ("Bon", 400)] ++ [("Bonjour", 800)])).timers,
      t.deadline = 800 + 1500) ∧
    (3 ≤ (jsTrim "Bonjour").length →
      (runInputEvents detectorInit ([("B", 0), ("Bon", 400)] ++ [("Bonjour", 800)])).timers =
        [⟨(runInputEvents detectorInit [("B", 0), ("Bon", 400)]).nextId, 800 + 1500⟩]) ∧
    ((jsTrim "Bonjour").length < 3 →
      (runInputEvents detectorInit ([("B", 0), ("Bon", 400)] ++ [("Bonjour", 800)])).timers =
        []) ∧
    (3 ≤ (jsTrim "Bonjour").length →
      Effect.request (Request.detectReq ⟨jsTrim "Bonjour"⟩) ∈
        (detectLanguage { uiAfterLoad with inputText := "Bonjour" }
          (FetchOutcome.netError "x")).2) :=
  claim_C4 detectorInit [("B", 0), ("Bon", 400)] "Bonjour" 800
    { uiAfterLoad with inputText := "Bonjour" } (FetchOutcome.netError "x")
    ⟨by decide, by decide⟩ rfl

/-- One alert event preserves "at most one alert element in the DOM". -/
theorem alertStep_doc_le_one (sys : AlertSys) (e : AlertEvent)
    (h : sys.doc.length ≤ 1) : (alertStep sys e).doc.length ≤ 1 := by
  cases e with
  | showMsg m k now =>
      simp only [alertStep, showAlert]
      cases hd : sys.doc with
      | nil => simp
      | cons a rest =>
          rw [hd] at h
          simp only [List.length_cons] at h
          have hrest : rest = [] := List.eq_nil_of_length_eq_zero (by omega)
          subst hrest
          simp
  | close i => exact le_trans (List.length_filter_le _ _) h
  | autoFire i => exact le_trans (List.length_filter_le _ _) h

/-- Any sequence of alert events preserves "at most one alert element". -/
theorem alertDoc_le_one_run (sys : AlertSys) (es : List AlertEvent)
    (h : sys.doc.length ≤ 1) : (runAlertEvents sys es).doc.length ≤ 1 := by
  induction es generalizing sys with
  | nil => exact h
  | cons e es ih =>
      simp only [runAlertEvents, List.foldl_cons]
      exact ih _ (alertStep_doc_le_one sys e h)

/-- C9: starting from the empty document, every sequence of show/dismiss
events leaves at most one alert element in the DOM; showing a new alert
removes the currently displayed one, leaving exactly the new element, and
schedules its auto-dismiss 5000 ms later; and a dismissal (manual close, or
the 5-second timeout firing first) removes that alert from the DOM. -/
theorem claim_C9 (es : List AlertEvent) (sys : AlertSys) (m : String) (k : NotifKind)
    (now i : Nat) (h : sys.doc.length ≤ 1) :
    (runAlertEvents alertSysInit es).doc.length ≤ 1 ∧
    (showAlert sys m k now).doc = [⟨sys.nextId, m, k⟩] ∧
    (sys.nextId, now + 5000) ∈ (showAlert sys m k now).sched ∧
    (∀ a ∈ (dismissAlert sys i).doc, a.id ≠ i) := by
  refine ⟨alertDoc_le_one_run _ es (by decide), ?_, ?_, ?_⟩
  · simp only [showAlert]
    cases hd : sys.doc with
    | nil => rfl
    | cons a rest =>
        rw [hd] at h
        simp only [List.length_cons] at h
        have hrest : rest = [] := List.eq_nil_of_length_eq_zero (by omega)
        subst hrest
        rfl
  · simp [showAlert]
  · intro a ha
    have hp := List.of_mem_filter ha
    simpa using hp

/-- Witness for C9: two shows then a manual close, from the empty system. -/
theorem claim_C9_witness :
    (runAlertEvents alertSysInit
        [AlertEvent.showMsg "Example text loaded" NotifKind.info 0,
         AlertEvent.showMsg "Translation successful!" NotifKind.success 10,
         AlertEvent.close 2]).doc.length ≤ 1 ∧
    (showAlert alertSysInit "All fields cleared" NotifKind.info 3).doc =
      [⟨alertSysInit.nextId, "All fields cleared", NotifKind.info⟩] ∧
    (alertSysInit.nextId, 3 + 5000) ∈
      (showAlert alertSysInit "All fields cleared" NotifKind.info 3).sched ∧
    (∀ a ∈ (dismissAlert alertSysInit 1).doc, a.id ≠ 1) :=
  claim_C9
    [AlertEvent.showMsg "Example text loaded" NotifKind.info 0,
     AlertEvent.showMsg "Translation successful!" NotifKind.success 10,
     AlertEvent.close 2]
    alertSysInit "All fields cleared" NotifKind.info 3 1 (by decide)

/-- C10: the `/tts` request body is exactly the stored current translation
paired with the dropdown value read when speak is invoked; hence after a
successful translate to `target_code`, changing the dropdown to a different
value `v` and invoking speak sends `lang = v`, which differs from the stored
translation's target code. -/
theorem claim_C10 (st su : UIState) (d : TranslateResponse) (v optText : String)
    (o o2 : FetchOutcome TtsResponse)
    (hsu : su.currentTranslation ≠ "")
    (h1 : jsTrim st.inputText ≠ "") (h2 : (jsTrim st.inputText).length ≤ 5000)
    (hs : d.success = true) (hne : d.translated_text ≠ "") (hv : v ≠ d.target_code) :
    ttsRequestOf (generateSpeech su o2).2 =
      some ⟨su.currentTranslation, su.targetLangValue⟩ ∧
    ttsRequestOf (generateSpeech
        (changeTargetLang (translateAction st (FetchOutcome.ok d)).1 v optText) o).2 =
      some ⟨d.translated_text, v⟩ ∧
    v ≠ d.target_code := by
  have hst1 : (changeTargetLang (translateAction st (FetchOutcome.ok d)).1
      v optText).currentTranslation = d.translated_text := by
    rw [translateAction_success_eq st d h1 (not_lt.mpr h2) hs]
    rfl
  have hst2 : (changeTargetLang (translateAction st (FetchOutcome.ok d)).1
      v optText).targetLangValue = v := rfl
  refine ⟨ttsRequestOf_generateSpeech su o2 hsu, ?_, hv⟩
  rw [ttsRequestOf_generateSpeech _ o (by rw [hst1]; exact hne), hst1, hst2]

/-- Witness for C10: translate `"Hello"` to French succeeds, the dropdown is
then switched to Spanish, and speak sends `lang = "es"` ≠ `"fr"`. -/
theorem claim_C10_witness :
    ttsRequestOf (generateSpeech { uiAfterLoad with currentTranslation := "Bonjour" }
        (FetchOutcome.netError "y")).2 =
      some ⟨({ uiAfterLoad with currentTranslation := "Bonjour" } : UIState).currentTranslation,
            ({ uiAfterLoad with currentTranslation := "Bonjour" } : UIState).targetLangValue⟩ ∧
    ttsRequestOf (generateSpeech
        (changeTargetLang (translateAction { uiAfterLoad with inputText := "Hello" }
            (FetchOutcome.ok bonjourResponse)).1 "es" "Spanish (es)")
        (FetchOutcome.netError "z")).2 =
      some ⟨bonjourResponse.translated_text, "es"⟩ ∧
    "es" ≠ bonjourResponse.target_code :=
  claim_C10 { uiAfterLoad with inputText := "Hello" }
    { uiAfterLoad with currentTranslation := "Bonjour" }
    bonjourResponse "es" "Spanish (es)"
    (FetchOutcome.netError "z") (FetchOutcome.netError "y")
    (by decide) (by decide) (by decide) (by decide) (by decide) (by decide)
